import Mathlib

/-!
Shallow embedding of the TMDB proxy backend (src/main.py).

The upstream HTTP exchange is abstracted: each function that performs an
outbound request takes the upstream outcome as an explicit parameter
(`Except String (HttpResp α)`: a transport failure carrying the exception
text, or a response with status code, raw text body and parsed JSON body).
Errors raised by the Python code (FastAPI HTTPException, ValueError from
`int()`) are modelled with `Except Err`.
-/

namespace TmdbProxy

/-- A loosely-typed JSON value, used for fields the code passes through
without inspecting (ratings, genres, videos, credits). Numeric payloads
are irrelevant to every property proved here, so numbers carry an `Int`. -/
inductive Json where
  | null : Json
  | bool (b : Bool) : Json
  | num (n : Int) : Json
  | str (s : String) : Json
  | arr (l : List Json) : Json
  | obj (l : List (String × Json)) : Json

/-- Errors a request handler can raise: `http` models
`fastapi.HTTPException(status_code, detail)`, `valueError` models the
`ValueError` raised by Python's `int()` on an unparseable string. -/
inductive Err where
  | http (status : Nat) (detail : String) : Err
  | valueError : Err
deriving DecidableEq

/-- Python string truthiness for an optional string: `None` and `""` are
falsy, every other string is truthy. -/
def strTruthy : Option String → Bool
  | none => false
  | some s => !(s == "")

/-- Python `a or d` for an optional string `a` and a string default `d`:
a missing or empty `a` falls through to `d`. -/
def pyOrStr : Option String → String → String
  | some s, d => if s = "" then d else s
  | none, d => d

/-- Characters removed by Python `str.strip()` (the ASCII whitespace
characters; exotic Unicode space code points are not modelled). -/
def pyIsSpace (c : Char) : Bool :=
  c = ' ' || c = '\t' || c = '\n' || c = '\r' || c = '\x0b' || c = '\x0c'

/-- Python `str.strip()`: drop leading and trailing whitespace. -/
def pyStrip (s : String) : String :=
  ⟨((s.toList.dropWhile pyIsSpace).reverse.dropWhile pyIsSpace).reverse⟩

/-- Value of a list of decimal digit characters. -/
def digitsToNat (l : List Char) : Nat :=
  l.foldl (fun acc c => acc * 10 + (c.toNat - '0'.toNat)) 0

/-- Python `int(s)` on a string: strip whitespace, allow one optional
sign, then require a nonempty run of decimal digits; `none` models the
`ValueError` raised on anything else. (Underscore digit separators are
not modelled; no input in scope contains them.) -/
def pyInt (s : String) : Option Int :=
  match (pyStrip s).toList with
  | [] => none
  | c :: rest =>
    let digits := if c = '-' || c = '+' then rest else c :: rest
    let sign : Int := if c = '-' then -1 else 1
    if digits = [] then none
    else if digits.all Char.isDigit then some (sign * Int.ofNat (digitsToNat digits))
    else none

/-- An upstream item record, holding exactly the keys `map_tmdb_item`
reads. `none` means the key is absent from the dict; `some ""` means the
key is present with the empty string as its value. -/
structure TmdbItem where
  id : Option Int := none
  title : Option String := none
  name : Option String := none
  release_date : Option String := none
  first_air_date : Option String := none
  vote_average : Option Json := none
  media_type : Option String := none
  poster_path : Option String := none
  backdrop_path : Option String := none
  overview : Option String := none
  original_language : Option String := none

/-- The canonical item dict returned by `map_tmdb_item`. -/
structure CanonicalItem where
  id : Option Int
  title : String
  year : Option Int
  rating : Option Json
  media_type : Option String
  poster : Option String
  backdrop : Option String
  overview : Option String
  original_language : Option String

/-- Python `date.split("-")[0]`: the segment of `s` before its first
dash (the whole string when no dash occurs). -/
def firstDashSegment (s : String) : String :=
  ⟨s.toList.takeWhile (fun c => c != '-')⟩

/-- The date resolved by `map_tmdb_item`, line 43 of src/main.py:
`date = item.get("release_date") or item.get("first_air_date") or ""`. -/
def resolvedDate (item : TmdbItem) : String :=
  pyOrStr item.release_date (pyOrStr item.first_air_date "")

/-- The record literal `map_tmdb_item` returns (lines 46-56 of
src/main.py), parametrized by the already-computed year:
`title = item.get("title") or item.get("name") or "Untitled"` and the
image URLs are built from the fixed CDN base only when the raw path is
truthy, else `None`. -/
def mkItem (item : TmdbItem) (year : Option Int) : CanonicalItem :=
  { id := item.id
    title := pyOrStr item.title (pyOrStr item.name "Untitled")
    year := year
    rating := item.vote_average
    media_type := item.media_type
    poster :=
      if strTruthy item.poster_path then
        some ("https://image.tmdb.org/t/p/w500" ++ item.poster_path.getD "")
      else none
    backdrop :=
      if strTruthy item.backdrop_path then
        some ("https://image.tmdb.org/t/p/w780" ++ item.backdrop_path.getD "")
      else none
    overview := item.overview
    original_language := item.original_language }

/-- Embedding of `map_tmdb_item` from src/main.py:
`year = int(date.split("-")[0]) if date else None`, with the rest of the
returned dict in `mkItem`. A failing `int()` surfaces as
`Err.valueError`. -/
def map_tmdb_item (item : TmdbItem) : Except Err CanonicalItem :=
  match (if resolvedDate item = "" then Except.ok none
         else match pyInt (firstDashSegment (resolvedDate item)) with
           | some y => Except.ok (some y)
           | none => Except.error Err.valueError : Except Err (Option Int)) with
  | .error e => .error e
  | .ok year => .ok (mkItem item year)

/-- One upstream HTTP response: status code, raw text body, and the
parsed JSON body (typed by what the caller reads from it). -/
structure HttpResp (α : Type) where
  status : Nat
  text : String
  body : α

/-- Embedding of `get_tmdb_key` from src/main.py: the `os.getenv` result
is the `key` argument; a missing or empty key raises
`HTTPException(500, ...)`. -/
def get_tmdb_key (key : Option String) : Except Err String :=
  if strTruthy key then .ok (key.getD "")
  else .error (.http 500 "TMDB_API_KEY not set in environment")

/-- Embedding of `tmdb_get` from src/main.py. The upstream exchange is
the `upstream` argument: `.error e` is a `requests.RequestException`
whose text is `e` (mapped to HTTPException 502), `.ok r` a received
response. A non-200 status raises `HTTPException(r.status, r.text)`;
that exception is not a `RequestException`, so it propagates uncaught
past the `except` clause. -/
def tmdb_get {α : Type} (key : Option String)
    (upstream : Except String (HttpResp α)) : Except Err α :=
  match get_tmdb_key key with
  | .error e => .error e
  | .ok _k =>
    match upstream with
    | .error e => .error (.http 502 ("TMDB request failed: " ++ e))
    | .ok r =>
      if r.status ≠ 200 then .error (.http r.status r.text)
      else .ok r.body

/-- An upstream listing payload, holding the keys the handlers read. -/
structure TmdbPage where
  page : Option Int := none
  total_pages : Option Int := none
  results : Option (List TmdbItem) := none

/-- The `page`, `total_pages`, `results` envelope a listing handler
returns. -/
structure Envelope where
  page : Int
  total_pages : Int
  results : List CanonicalItem

/-- Embedding of `tmdb_trending` from src/main.py. The
framework-validated query parameters are carried for fidelity; the
upstream outcome for the chosen path is the `upstream` argument. -/
def tmdb_trending (media_type : String) (time_window : String) (page : Int)
    (key : Option String) (upstream : Except String (HttpResp TmdbPage)) :
    Except Err Envelope :=
  let _path := "/trending/" ++ media_type ++ "/" ++ time_window
  let _pg := page
  match tmdb_get key upstream with
  | .error e => .error e
  | .ok data =>
    match (data.results.getD []).mapM map_tmdb_item with
    | .error e => .error e
    | .ok results =>
      .ok { page := data.page.getD 1
            total_pages := data.total_pages.getD 1
            results := results }

/-- Embedding of `tmdb_search` from src/main.py: a blank query raises
`HTTPException(400, "Query is required")` before any upstream call. -/
def tmdb_search (query : String) (page : Int) (type : String)
    (key : Option String) (upstream : Except String (HttpResp TmdbPage)) :
    Except Err Envelope :=
  if pyStrip query = "" then .error (.http 400 "Query is required")
  else
    let _endpoint := if type = "multi" then "/search/multi" else "/search/" ++ type
    let _pg := page
    match tmdb_get key upstream with
    | .error e => .error e
    | .ok data =>
      match (data.results.getD []).mapM map_tmdb_item with
      | .error e => .error e
      | .ok results =>
        .ok { page := data.page.getD 1
              total_pages := data.total_pages.getD 1
              results := results }

/-- The `videos` sub-object of a movie-details payload. -/
structure TmdbVideos where
  results : Option (List Json) := none

/-- An upstream movie-details payload: the item keys `map_tmdb_item`
reads plus the detail keys the handler merges in. -/
structure TmdbDetail extends TmdbItem where
  genres : Option (List Json) := none
  runtime : Option Int := none
  videos : Option TmdbVideos := none
  credits : Option Json := none
  homepage : Option String := none
  status : Option String := none

/-- The merged dict `tmdb_movie_details` returns: the canonical base
item updated with the detail keys (no key collision occurs, so the
`dict.update` is a pure extension). -/
structure MovieDetail where
  base : CanonicalItem
  genres : List Json
  runtime : Option Int
  videos : List Json
  credits : Json
  homepage : Option String
  status : Option String
  release_date : Option String

/-- Embedding of `tmdb_movie_details` from src/main.py: fetch
`/movie/{movie_id}` with `append_to_response=videos,credits`, normalize
the base item, then merge the detail fields with `dict.get` defaults. -/
def tmdb_movie_details (movie_id : Int) (key : Option String)
    (upstream : Except String (HttpResp TmdbDetail)) : Except Err MovieDetail :=
  let _path := "/movie/" ++ toString movie_id
  match tmdb_get key upstream with
  | .error e => .error e
  | .ok data =>
    match map_tmdb_item data.toTmdbItem with
    | .error e => .error e
    | .ok base =>
      .ok { base := base
            genres := data.genres.getD []
            runtime := data.runtime
            videos := (data.videos.getD {}).results.getD []
            credits := data.credits.getD (Json.obj [])
            homepage := data.homepage
            status := data.status
            release_date := data.release_date }

/-! Concrete fixtures used by witness theorems. -/

/-- A sample upstream item, the one from the spec's trending scenario. -/
def sampleItem : TmdbItem :=
  { id := some 42
    title := some "X"
    release_date := some "2020-01-01"
    poster_path := some "/a.jpg" }

/-- A sample listing payload containing `sampleItem`. -/
def samplePage : TmdbPage :=
  { page := some 1, total_pages := some 10, results := some [sampleItem] }

/-- A 200 response carrying `samplePage`. -/
def samplePageResp : HttpResp TmdbPage :=
  { status := 200, text := "", body := samplePage }

/-- A 200 response whose payload has no `results` array. -/
def emptyPageResp : HttpResp TmdbPage :=
  { status := 200, text := "", body := {} }

/-- A details payload with every sub-resource missing. -/
def sampleDetail : TmdbDetail :=
  { toTmdbItem := sampleItem }

/-- A 200 response carrying `sampleDetail`. -/
def sampleDetailResp : HttpResp TmdbDetail :=
  { status := 200, text := "", body := sampleDetail }

/-- The raw body of the spec's 404 scenario. -/
def notFoundBody : String := "\x7b\"status_message\":\"Not found\"\x7d"

/-- A 404 listing-endpoint response with `notFoundBody`. -/
def notFoundPageResp : HttpResp TmdbPage :=
  { status := 404, text := notFoundBody, body := {} }

/-- A 404 details-endpoint response with `notFoundBody`. -/
def notFoundDetailResp : HttpResp TmdbDetail :=
  { status := 404, text := notFoundBody, body := {} }

/-- An item whose string fields are all present but empty. -/
def allEmptyItem : TmdbItem :=
  { title := some ""
    name := some ""
    release_date := some ""
    first_air_date := some ""
    poster_path := some ""
    backdrop_path := some "" }

/-! Helper lemmas shared by the claim theorems. -/

/-- When the resolved date is empty, normalization succeeds with no
year. -/
theorem map_eq_of_empty_date (item : TmdbItem) (hd : resolvedDate item = "") :
    map_tmdb_item item = .ok (mkItem item none) := by
  simp [map_tmdb_item, hd]

/-- When the resolved date is nonempty and its leading segment parses,
normalization succeeds with that year. -/
theorem map_eq_of_parse (item : TmdbItem) (y : Int)
    (hd : resolvedDate item ≠ "")
    (hp : pyInt (firstDashSegment (resolvedDate item)) = some y) :
    map_tmdb_item item = .ok (mkItem item (some y)) := by
  simp [map_tmdb_item, hd, hp]

/-- Inversion: a successful normalization is `mkItem` at the year
dictated by the resolved date. -/
theorem map_ok_cases (item : TmdbItem) (r : CanonicalItem)
    (h : map_tmdb_item item = .ok r) :
    (resolvedDate item = "" ∧ r = mkItem item none) ∨
    (resolvedDate item ≠ "" ∧ ∃ y,
       pyInt (firstDashSegment (resolvedDate item)) = some y ∧
       r = mkItem item (some y)) := by
  by_cases hd : resolvedDate item = ""
  · left
    refine ⟨hd, ?_⟩
    rw [map_eq_of_empty_date item hd] at h
    exact (Except.ok.injEq _ _).mp h.symm
  · right
    refine ⟨hd, ?_⟩
    cases hp : pyInt (firstDashSegment (resolvedDate item)) with
    | none => simp [map_tmdb_item, hd, hp] at h
    | some y =>
      rw [map_eq_of_parse item y hd hp] at h
      exact ⟨y, rfl, (Except.ok.injEq _ _).mp h.symm⟩

/-- A string with a nonempty prefix glued on differs from the bare
string and from the empty string. -/
theorem append_ne (pre p : String) (hpre : 0 < pre.length) :
    pre ++ p ≠ p ∧ pre ++ p ≠ "" := by
  constructor
  · intro he
    have hl := congrArg String.length he
    rw [String.length_append] at hl
    omega
  · intro he
    have hl := congrArg String.length he
    rw [String.length_append] at hl
    have h0 : ("" : String).length = 0 := rfl
    omega

/-- The shape of one image-URL field of `mkItem`: absent, or the fixed
prefix glued onto the nonempty raw path; never empty, never the bare
path. -/
theorem image_field_props (path : Option String) (pre : String)
    (hpre : 0 < pre.length) :
    ((if strTruthy path then some (pre ++ path.getD "") else none) = none ∨
      ∃ p, path = some p ∧ p ≠ "" ∧
        (if strTruthy path then some (pre ++ path.getD "") else none) =
          some (pre ++ p)) ∧
    (if strTruthy path then some (pre ++ path.getD "") else none) ≠ some "" ∧
    ∀ p, path = some p →
      (if strTruthy path then some (pre ++ path.getD "") else none) ≠ some p := by
  cases path with
  | none => simp [strTruthy]
  | some p =>
    by_cases hp : p = ""
    · subst hp
      simp [strTruthy]
    · have ht : strTruthy (some p) = true := by simp [strTruthy, hp]
      rw [ht]
      simp only [if_pos, Option.getD_some]
      refine ⟨Or.inr ⟨p, rfl, hp, rfl⟩, ?_, ?_⟩
      · intro he
        exact (append_ne pre p hpre).2 (Option.some.injEq _ _ |>.mp he)
      · intro q hq he
        cases hq
        exact (append_ne pre p hpre).1 (Option.some.injEq _ _ |>.mp he)

/-- C1: the normalizer resolves the date as `release_date` else
`first_air_date` else empty (`resolvedDate`); when the resolved date is
nonempty the output year is the integer parse of the segment before the
first dash, and when both date fields are empty or missing the year is
absent. -/
theorem C1_year_extraction (item : TmdbItem) :
    (∀ y : Int, resolvedDate item ≠ "" →
        pyInt (firstDashSegment (resolvedDate item)) = some y →
        ∃ r, map_tmdb_item item = .ok r ∧ r.year = some y) ∧
    (resolvedDate item = "" →
        ∃ r, map_tmdb_item item = .ok r ∧ r.year = none) := by
  constructor
  · intro y hd hp
    exact ⟨mkItem item (some y), map_eq_of_parse item y hd hp, rfl⟩
  · intro hd
    exact ⟨mkItem item none, map_eq_of_empty_date item hd, rfl⟩

/-- Witness for C1: `release_date = "2021-05-04"` yields year 2021, and
an item with no date field yields no year. -/
theorem C1_witness :
    (∃ r, map_tmdb_item { release_date := some "2021-05-04" } = .ok r ∧
        r.year = some 2021) ∧
    (∃ r, map_tmdb_item {} = .ok r ∧ r.year = none) :=
  ⟨(C1_year_extraction { release_date := some "2021-05-04" }).1 2021
      (by decide) (by decide),
   (C1_year_extraction {}).2 rfl⟩

/-- C2: a normalized poster is the fixed CDN base plus `/t/p/w500` plus
the raw poster path, or absent; a backdrop likewise with `/t/p/w780`;
neither is ever an empty string or the bare path. -/
theorem C2_image_urls (item : TmdbItem) (r : CanonicalItem)
    (h : map_tmdb_item item = .ok r) :
    (r.poster = none ∨ ∃ p, item.poster_path = some p ∧ p ≠ "" ∧
        r.poster = some ("https://image.tmdb.org/t/p/w500" ++ p)) ∧
    (r.backdrop = none ∨ ∃ p, item.backdrop_path = some p ∧ p ≠ "" ∧
        r.backdrop = some ("https://image.tmdb.org/t/p/w780" ++ p)) ∧
    r.poster ≠ some "" ∧ r.backdrop ≠ some "" ∧
    (∀ p, item.poster_path = some p → r.poster ≠ some p) ∧
    (∀ p, item.backdrop_path = some p → r.backdrop ≠ some p) := by
  obtain ⟨yr, hr⟩ : ∃ yr, r = mkItem item yr := by
    rcases map_ok_cases item r h with ⟨_, h1⟩ | ⟨_, _, _, h1⟩ <;> exact ⟨_, h1⟩
  subst hr
  have hp := image_field_props item.poster_path "https://image.tmdb.org/t/p/w500"
    (by decide)
  have hb := image_field_props item.backdrop_path "https://image.tmdb.org/t/p/w780"
    (by decide)
  exact ⟨hp.1, hb.1, hp.2.1, hb.2.1, hp.2.2, hb.2.2⟩

/-- Witness for C2 at the spec's sample item: the poster is the full
URL, the backdrop absent, and neither is empty or bare. -/
theorem C2_witness :
    ((mkItem sampleItem (some 2020)).poster = none ∨
      ∃ p, sampleItem.poster_path = some p ∧ p ≠ "" ∧
        (mkItem sampleItem (some 2020)).poster =
          some ("https://image.tmdb.org/t/p/w500" ++ p)) ∧
    ((mkItem sampleItem (some 2020)).backdrop = none ∨
      ∃ p, sampleItem.backdrop_path = some p ∧ p ≠ "" ∧
        (mkItem sampleItem (some 2020)).backdrop =
          some ("https://image.tmdb.org/t/p/w780" ++ p)) ∧
    (mkItem sampleItem (some 2020)).poster ≠ some "" ∧
    (mkItem sampleItem (some 2020)).backdrop ≠ some "" ∧
    (∀ p, sampleItem.poster_path = some p →
        (mkItem sampleItem (some 2020)).poster ≠ some p) ∧
    (∀ p, sampleItem.backdrop_path = some p →
        (mkItem sampleItem (some 2020)).backdrop ≠ some p) :=
  C2_image_urls sampleItem (mkItem sampleItem (some 2020)) rfl

/-- Counterexample to C3 as stated: for the item with `title` present
as `""` and `name = "Alpha"`, the normalized title is `"Alpha"`, not
the present `title` value. -/
theorem C3_counterexample :
    ¬ ∀ (item : TmdbItem) (r : CanonicalItem), map_tmdb_item item = .ok r →
        ∀ t, item.title = some t → r.title = t := by
  intro hall
  have h := hall { title := some "", name := some "Alpha" }
    (mkItem { title := some "", name := some "Alpha" } none) rfl "" rfl
  exact absurd h (by decide)

/-- C3 amended: the normalized title is the item's title field if
present and nonempty, else its name field if present and nonempty, else
the literal "Untitled"; in particular items missing both fields get
"Untitled". -/
theorem C3_title_resolution (item : TmdbItem) (r : CanonicalItem)
    (h : map_tmdb_item item = .ok r) :
    (∀ t, item.title = some t → t ≠ "" → r.title = t) ∧
    ((item.title = none ∨ item.title = some "") →
        ∀ n, item.name = some n → n ≠ "" → r.title = n) ∧
    ((item.title = none ∨ item.title = some "") →
        (item.name = none ∨ item.name = some "") → r.title = "Untitled") := by
  have htitle : r.title = pyOrStr item.title (pyOrStr item.name "Untitled") := by
    rcases map_ok_cases item r h with ⟨_, h1⟩ | ⟨_, _, _, h1⟩ <;> subst h1 <;> rfl
  rw [htitle]
  refine ⟨?_, ?_, ?_⟩
  · intro t ht hne
    rw [ht]
    simp [pyOrStr, hne]
  · intro hcase n hn hne
    rcases hcase with ht | ht <;> rw [ht, hn] <;> simp [pyOrStr, hne]
  · intro hcase1 hcase2
    rcases hcase1 with ht | ht <;> rcases hcase2 with hn | hn <;>
      rw [ht, hn] <;> simp [pyOrStr]

/-- Witness for C3's amended statement: a present title wins, an absent
title falls back to the name, and with both missing the title is
"Untitled". -/
theorem C3_witness :
    (mkItem { title := some "T" } none).title = "T" ∧
    (mkItem { name := some "N" } none).title = "N" ∧
    (mkItem {} none).title = "Untitled" :=
  ⟨(C3_title_resolution { title := some "T" } (mkItem { title := some "T" } none)
      rfl).1 "T" rfl (by decide),
   (C3_title_resolution { name := some "N" } (mkItem { name := some "N" } none)
      rfl).2.1 (Or.inl rfl) "N" rfl (by decide),
   (C3_title_resolution {} (mkItem {} none) rfl).2.2 (Or.inl rfl) (Or.inl rfl)⟩

/-- C4: when the upstream responds with a non-2xx status, the provider
client fails with the upstream status code and raw body unmodified, and
every handler relays that status and body to the caller as-is. -/
theorem C4_upstream_error_relay (key : String) (hk : key ≠ "")
    (rp : HttpResp TmdbPage) (rd : HttpResp TmdbDetail)
    (hp : rp.status < 200 ∨ 300 ≤ rp.status)
    (hd : rd.status < 200 ∨ 300 ≤ rd.status) :
    tmdb_get (some key) (Except.ok rp) =
      (Except.error (Err.http rp.status rp.text) : Except Err TmdbPage) ∧
    (∀ mt tw pg, tmdb_trending mt tw pg (some key) (Except.ok rp) =
        Except.error (Err.http rp.status rp.text)) ∧
    (∀ q pg ty, pyStrip q ≠ "" →
        tmdb_search q pg ty (some key) (Except.ok rp) =
          Except.error (Err.http rp.status rp.text)) ∧
    ∀ mid, tmdb_movie_details mid (some key) (Except.ok rd) =
        Except.error (Err.http rd.status rd.text) := by
  have htr : strTruthy (some key) = true := by simp [strTruthy, hk]
  have h200p : rp.status ≠ 200 := by omega
  have h200d : rd.status ≠ 200 := by omega
  have hget : ∀ {α : Type} (r : HttpResp α), r.status ≠ 200 →
      tmdb_get (some key) (Except.ok r) = Except.error (Err.http r.status r.text) := by
    intro α r h200
    simp [tmdb_get, get_tmdb_key, htr, h200]
  refine ⟨hget rp h200p, ?_, ?_, ?_⟩
  · intro mt tw pg
    simp [tmdb_trending, hget rp h200p]
  · intro q pg ty hq
    simp [tmdb_search, hq, hget rp h200p]
  · intro mid
    simp [tmdb_movie_details, hget rd h200d]

/-- Witness for C4 at the spec's 404 scenario: the client and the
handlers reproduce status 404 and the raw body. -/
theorem C4_witness :
    tmdb_get (some "k") (Except.ok notFoundPageResp) =
      (Except.error (Err.http 404 notFoundBody) : Except Err TmdbPage) ∧
    tmdb_trending "movie" "day" 1 (some "k") (Except.ok notFoundPageResp) =
      Except.error (Err.http 404 notFoundBody) ∧
    tmdb_search "batman" 1 "multi" (some "k") (Except.ok notFoundPageResp) =
      Except.error (Err.http 404 notFoundBody) ∧
    tmdb_movie_details 42 (some "k") (Except.ok notFoundDetailResp) =
      Except.error (Err.http 404 notFoundBody) :=
  have h := C4_upstream_error_relay "k" (by decide) notFoundPageResp
    notFoundDetailResp (Or.inr (by decide)) (Or.inr (by decide))
  ⟨h.1, h.2.1 "movie" "day" 1, h.2.2.1 "batman" 1 "multi" (by decide),
    h.2.2.2 42⟩

/-- C5: when no nonempty API key is configured, the provider client and
every TMDB-backed endpoint fail with HTTP 500 for every possible
upstream outcome, so no upstream request is ever consulted. -/
theorem C5_missing_key (key : Option String)
    (hk : key = none ∨ key = some "") :
    (∀ (α : Type) (upstream : Except String (HttpResp α)),
        tmdb_get key upstream =
          .error (.http 500 "TMDB_API_KEY not set in environment")) ∧
    (∀ mt tw pg (upstream : Except String (HttpResp TmdbPage)),
        tmdb_trending mt tw pg key upstream =
          .error (.http 500 "TMDB_API_KEY not set in environment")) ∧
    ∀ mid (upstream : Except String (HttpResp TmdbDetail)),
        tmdb_movie_details mid key upstream =
          .error (.http 500 "TMDB_API_KEY not set in environment") := by
  have hkey : get_tmdb_key key =
      .error (.http 500 "TMDB_API_KEY not set in environment") := by
    rcases hk with h | h <;> subst h <;> rfl
  have hget : ∀ (α : Type) (up : Except String (HttpResp α)),
      tmdb_get key up =
        .error (.http 500 "TMDB_API_KEY not set in environment") := by
    intro α up
    simp [tmdb_get, hkey]
  refine ⟨hget, ?_, ?_⟩
  · intro mt tw pg up
    simp [tmdb_trending, hget]
  · intro mid up
    simp [tmdb_movie_details, hget]

/-- Witness for C5: with the key unset, a trending call fails with 500
regardless of what the upstream would have answered. -/
theorem C5_witness :
    tmdb_get none (Except.ok samplePageResp) =
      (.error (.http 500 "TMDB_API_KEY not set in environment") :
        Except Err TmdbPage) ∧
    tmdb_trending "movie" "day" 1 none (Except.ok samplePageResp) =
      .error (.http 500 "TMDB_API_KEY not set in environment") ∧
    tmdb_movie_details 42 none (Except.ok sampleDetailResp) =
      .error (.http 500 "TMDB_API_KEY not set in environment") :=
  have h := C5_missing_key none (Or.inl rfl)
  ⟨h.1 TmdbPage (Except.ok samplePageResp),
    h.2.1 "movie" "day" 1 (Except.ok samplePageResp),
    h.2.2 42 (Except.ok sampleDetailResp)⟩

/-- C6: a search whose query is empty or whitespace-only after trimming
fails with HTTP 400 for every key and every possible upstream outcome,
so no upstream call is made. -/
theorem C6_blank_query (query : String) (hq : pyStrip query = "")
    (page : Int) (ty : String) (key : Option String)
    (upstream : Except String (HttpResp TmdbPage)) :
    tmdb_search query page ty key upstream =
      .error (.http 400 "Query is required") := by
  simp [tmdb_search, hq]

/-- Witness for C6: a whitespace-only query is rejected with 400 even
though the upstream would have answered 200. -/
theorem C6_witness :
    tmdb_search "  \t " 1 "multi" (some "k") (Except.ok samplePageResp) =
      .error (.http 400 "Query is required") :=
  C6_blank_query "  \t " (by decide) 1 "multi" (some "k")
    (Except.ok samplePageResp)

/-- Evaluation of `tmdb_trending` when the provider call fails. -/
theorem trending_get_error (mt tw : String) (pg : Int) (key : Option String)
    (up : Except String (HttpResp TmdbPage)) (e : Err)
    (hget : tmdb_get key up = .error e) :
    tmdb_trending mt tw pg key up = .error e := by
  simp [tmdb_trending, hget]

/-- Evaluation of `tmdb_trending` once the provider call succeeded. -/
theorem trending_get_ok (mt tw : String) (pg : Int) (key : Option String)
    (up : Except String (HttpResp TmdbPage)) (data : TmdbPage)
    (hget : tmdb_get key up = .ok data) :
    tmdb_trending mt tw pg key up =
      match (data.results.getD []).mapM map_tmdb_item with
      | .error e => .error e
      | .ok results =>
        .ok { page := data.page.getD 1, total_pages := data.total_pages.getD 1,
              results := results } := by
  simp [tmdb_trending, hget]

/-- Evaluation of `tmdb_search` on a blank query. -/
theorem search_blank_eq (q : String) (hq : pyStrip q = "") (pg : Int)
    (ty : String) (key : Option String)
    (up : Except String (HttpResp TmdbPage)) :
    tmdb_search q pg ty key up = .error (.http 400 "Query is required") := by
  simp [tmdb_search, hq]

/-- Evaluation of `tmdb_search` when the provider call fails. -/
theorem search_get_error (q : String) (hq : pyStrip q ≠ "") (pg : Int)
    (ty : String) (key : Option String)
    (up : Except String (HttpResp TmdbPage)) (e : Err)
    (hget : tmdb_get key up = .error e) :
    tmdb_search q pg ty key up = .error e := by
  simp [tmdb_search, hq, hget]

/-- Evaluation of `tmdb_search` once the provider call succeeded. -/
theorem search_get_ok (q : String) (hq : pyStrip q ≠ "") (pg : Int)
    (ty : String) (key : Option String)
    (up : Except String (HttpResp TmdbPage)) (data : TmdbPage)
    (hget : tmdb_get key up = .ok data) :
    tmdb_search q pg ty key up =
      match (data.results.getD []).mapM map_tmdb_item with
      | .error e => .error e
      | .ok results =>
        .ok { page := data.page.getD 1, total_pages := data.total_pages.getD 1,
              results := results } := by
  simp [tmdb_search, hq, hget]

/-- Normalizing a missing results array yields the empty list. -/
theorem mapM_of_results_none (data : TmdbPage) (hres : data.results = none) :
    (data.results.getD []).mapM map_tmdb_item = .ok [] := by
  rw [hres]
  rfl

/-- C7: a successful trending or search request returns the
`{page, total_pages, results}` envelope whose results list is the
upstream results array with the normalizer applied elementwise, and an
upstream payload with no results array yields an empty list, not a
failure. -/
theorem C7_envelope :
    (∀ mt tw pg key upstream env,
        tmdb_trending mt tw pg key upstream = .ok env →
        ∃ data, tmdb_get key upstream = .ok data ∧
          env.page = data.page.getD 1 ∧
          env.total_pages = data.total_pages.getD 1 ∧
          (data.results.getD []).mapM map_tmdb_item = .ok env.results) ∧
    (∀ mt tw pg key upstream data,
        tmdb_get key upstream = .ok data → data.results = none →
        tmdb_trending mt tw pg key upstream =
          .ok { page := data.page.getD 1, total_pages := data.total_pages.getD 1,
                results := [] }) ∧
    (∀ q pg ty key upstream env,
        tmdb_search q pg ty key upstream = .ok env →
        ∃ data, tmdb_get key upstream = .ok data ∧
          env.page = data.page.getD 1 ∧
          env.total_pages = data.total_pages.getD 1 ∧
          (data.results.getD []).mapM map_tmdb_item = .ok env.results) ∧
    ∀ q pg ty key upstream data,
        pyStrip q ≠ "" →
        tmdb_get key upstream = .ok data → data.results = none →
        tmdb_search q pg ty key upstream =
          .ok { page := data.page.getD 1, total_pages := data.total_pages.getD 1,
                results := [] } := by
  refine ⟨?_, ?_, ?_, ?_⟩
  · intro mt tw pg key up env h
    cases hget : tmdb_get key up with
    | error e =>
      rw [trending_get_error mt tw pg key up e hget] at h
      exact absurd h (by simp)
    | ok data =>
      rw [trending_get_ok mt tw pg key up data hget] at h
      cases hmap : (data.results.getD []).mapM map_tmdb_item with
      | error e =>
        rw [hmap] at h
        exact absurd h (by simp)
      | ok results =>
        rw [hmap] at h
        injection h with h2
        subst h2
        exact ⟨data, rfl, rfl, rfl, hmap⟩
  · intro mt tw pg key up data hget hres
    rw [trending_get_ok mt tw pg key up data hget, mapM_of_results_none data hres]
  · intro q pg ty key up env h
    by_cases hq : pyStrip q = ""
    · rw [search_blank_eq q hq pg ty key up] at h
      exact absurd h (by simp)
    · cases hget : tmdb_get key up with
      | error e =>
        rw [search_get_error q hq pg ty key up e hget] at h
        exact absurd h (by simp)
      | ok data =>
        rw [search_get_ok q hq pg ty key up data hget] at h
        cases hmap : (data.results.getD []).mapM map_tmdb_item with
        | error e =>
          rw [hmap] at h
          exact absurd h (by simp)
        | ok results =>
          rw [hmap] at h
          injection h with h2
          subst h2
          exact ⟨data, rfl, rfl, rfl, hmap⟩
  · intro q pg ty key up data hq hget hres
    rw [search_get_ok q hq pg ty key up data hget, mapM_of_results_none data hres]

/-- Witness for C7 at the spec's trending scenario payload and at a
payload with no results array, for both listing handlers. -/
theorem C7_witness :
    (∃ data, tmdb_get (some "k") (Except.ok samplePageResp) = .ok data ∧
        (1 : Int) = data.page.getD 1 ∧ (10 : Int) = data.total_pages.getD 1 ∧
        (data.results.getD []).mapM map_tmdb_item =
          .ok [mkItem sampleItem (some 2020)]) ∧
    tmdb_trending "movie" "day" 1 (some "k") (Except.ok emptyPageResp) =
      .ok { page := 1, total_pages := 1, results := [] } ∧
    (∃ data, tmdb_get (some "k") (Except.ok samplePageResp) = .ok data ∧
        (1 : Int) = data.page.getD 1 ∧ (10 : Int) = data.total_pages.getD 1 ∧
        (data.results.getD []).mapM map_tmdb_item =
          .ok [mkItem sampleItem (some 2020)]) ∧
    tmdb_search "batman" 1 "multi" (some "k") (Except.ok emptyPageResp) =
      .ok { page := 1, total_pages := 1, results := [] } := by
  refine ⟨?_, ?_, ?_, ?_⟩
  · exact C7_envelope.1 "movie" "day" 1 (some "k") (Except.ok samplePageResp)
      ⟨1, 10, [mkItem sampleItem (some 2020)]⟩ rfl
  · exact C7_envelope.2.1 "movie" "day" 1 (some "k") (Except.ok emptyPageResp)
      emptyPageResp.body rfl rfl
  · exact C7_envelope.2.2.1 "batman" 1 "multi" (some "k")
      (Except.ok samplePageResp) ⟨1, 10, [mkItem sampleItem (some 2020)]⟩ rfl
  · exact C7_envelope.2.2.2 "batman" 1 "multi" (some "k")
      (Except.ok emptyPageResp) emptyPageResp.body (by decide) rfl rfl

/-- C8: a successful item-detail request returns the normalized base
item merged with genres, runtime, the video list, the credits object,
homepage, status and the raw release_date; every missing sub-resource
defaults to an empty collection/object or absent scalar and never causes
a failure (the result does not depend on the sub-resources being
present). -/
theorem C8_detail_merge (mid : Int) (key : Option String)
    (upstream : Except String (HttpResp TmdbDetail)) (data : TmdbDetail)
    (base : CanonicalItem)
    (hget : tmdb_get key upstream = .ok data)
    (hbase : map_tmdb_item data.toTmdbItem = .ok base) :
    tmdb_movie_details mid key upstream = .ok
      { base := base
        genres := data.genres.getD []
        runtime := data.runtime
        videos := (data.videos.getD {}).results.getD []
        credits := data.credits.getD (Json.obj [])
        homepage := data.homepage
        status := data.status
        release_date := data.release_date } := by
  simp [tmdb_movie_details, hget, hbase]

/-- Witness for C8: a details payload with every sub-resource missing
still succeeds, with empty defaults and the raw release date. -/
theorem C8_witness :
    tmdb_movie_details 42 (some "k") (Except.ok sampleDetailResp) = .ok
      { base := mkItem sampleItem (some 2020)
        genres := []
        runtime := none
        videos := []
        credits := Json.obj []
        homepage := none
        status := none
        release_date := some "2020-01-01" } :=
  C8_detail_merge 42 (some "k") (Except.ok sampleDetailResp) sampleDetail
    (mkItem sampleItem (some 2020)) rfl rfl

/-- Counterexample to C9 as stated: the normalizer accepts an item with
no id at all, and then the output id is absent rather than an integer
equal to a provider identifier. -/
theorem C9_counterexample :
    ¬ ∀ (item : TmdbItem) (r : CanonicalItem), map_tmdb_item item = .ok r →
        ∃ n : Int, r.id = some n ∧ item.id = some n := by
  intro hall
  obtain ⟨n, hn, -⟩ := hall {} (mkItem {} none) rfl
  simp [mkItem] at hn

/-- C9 amended: the normalized id is the direct passthrough of the
upstream id: equal to the provider's integer identifier whenever one is
present, and absent when the upstream record has none. -/
theorem C9_id_passthrough (item : TmdbItem) (r : CanonicalItem)
    (h : map_tmdb_item item = .ok r) : r.id = item.id := by
  rcases map_ok_cases item r h with ⟨_, h1⟩ | ⟨_, _, _, h1⟩ <;> subst h1 <;> rfl

/-- Witness for C9's amended statement: id 7 passes through. -/
theorem C9_witness : (mkItem { id := some 7 } none).id = some 7 :=
  C9_id_passthrough { id := some 7 } (mkItem { id := some 7 } none) rfl

/-- C10: each string field the normalizer branches on (`title`, `name`,
`release_date`, `first_air_date`, `poster_path`, `backdrop_path`) is
treated, when present but empty, exactly as if it were absent; in
particular an empty poster or backdrop path yields an absent URL. -/
theorem C10_empty_string_as_absent (item : TmdbItem) :
    (item.title = some "" →
        map_tmdb_item item = map_tmdb_item { item with title := none }) ∧
    (item.name = some "" →
        map_tmdb_item item = map_tmdb_item { item with name := none }) ∧
    (item.release_date = some "" →
        map_tmdb_item item = map_tmdb_item { item with release_date := none }) ∧
    (item.first_air_date = some "" →
        map_tmdb_item item =
          map_tmdb_item { item with first_air_date := none }) ∧
    (item.poster_path = some "" →
        map_tmdb_item item = map_tmdb_item { item with poster_path := none } ∧
        ∀ r, map_tmdb_item item = .ok r → r.poster = none) ∧
    (item.backdrop_path = some "" →
        map_tmdb_item item = map_tmdb_item { item with backdrop_path := none } ∧
        ∀ r, map_tmdb_item item = .ok r → r.backdrop = none) := by
  obtain ⟨id, ti, na, rd, fad, va, mt, pp, bp, ov, ol⟩ := item
  refine ⟨?_, ?_, ?_, ?_, ?_, ?_⟩
  · rintro rfl; rfl
  · rintro rfl; rfl
  · rintro rfl; rfl
  · rintro rfl; rfl
  · rintro rfl
    refine ⟨rfl, ?_⟩
    intro r hr
    rcases map_ok_cases _ r hr with ⟨_, h1⟩ | ⟨_, _, _, h1⟩ <;> subst h1 <;>
      simp [mkItem, strTruthy]
  · rintro rfl
    refine ⟨rfl, ?_⟩
    intro r hr
    rcases map_ok_cases _ r hr with ⟨_, h1⟩ | ⟨_, _, _, h1⟩ <;> subst h1 <;>
      simp [mkItem, strTruthy]

/-- Witness for C10 at an item whose six branch-controlling fields are
all present but empty. -/
theorem C10_witness :
    map_tmdb_item allEmptyItem =
      map_tmdb_item { allEmptyItem with title := none } ∧
    map_tmdb_item allEmptyItem =
      map_tmdb_item { allEmptyItem with name := none } ∧
    map_tmdb_item allEmptyItem =
      map_tmdb_item { allEmptyItem with release_date := none } ∧
    map_tmdb_item allEmptyItem =
      map_tmdb_item { allEmptyItem with first_air_date := none } ∧
    map_tmdb_item allEmptyItem =
      map_tmdb_item { allEmptyItem with poster_path := none } ∧
    (mkItem allEmptyItem none).poster = none ∧
    map_tmdb_item allEmptyItem =
      map_tmdb_item { allEmptyItem with backdrop_path := none } ∧
    (mkItem allEmptyItem none).backdrop = none :=
  have h := C10_empty_string_as_absent allEmptyItem
  ⟨h.1 rfl, h.2.1 rfl, h.2.2.1 rfl, h.2.2.2.1 rfl,
    (h.2.2.2.2.1 rfl).1, (h.2.2.2.2.1 rfl).2 (mkItem allEmptyItem none) rfl,
    (h.2.2.2.2.2 rfl).1, (h.2.2.2.2.2 rfl).2 (mkItem allEmptyItem none) rfl⟩

end TmdbProxy
